import Mathlib

/-!
Shallow embedding of the macOSflippers telemetry bridge
(`src/main.rs`, `src/system_info.rs`, `src/gpu_info_macos.rs`).

External command output (stdout of `ioreg`, `powermetrics`, `sysctl`,
`system_profiler`) is modelled as `Option String`: `none` means the
`Command::output()` call failed, `some s` is the captured stdout after
`String::from_utf8_lossy`.  All text scanning is re-implemented over
`List Char` with structural recursion, mirroring the Rust string
primitives used by the source (`str::contains`, `str::split`,
`str::lines`, `str::trim`, `str::trim_matches`, `str::trim_end_matches`,
`str::split_whitespace`, `u64::from_str`).
-/

/-- Model of Rust `str::starts_with` on char lists: `listIsPre needle hay`
is true when `needle` is an initial segment of `hay`. -/
def listIsPre : List Char → List Char → Bool
  | [], _ => true
  | _ :: _, [] => false
  | a :: as, b :: bs => a = b && listIsPre as bs

/-- Model of Rust `str::contains(needle)` on char lists (substring test). -/
def containsL (hay needle : List Char) : Bool :=
  match hay with
  | [] => needle.isEmpty
  | _ :: cs => listIsPre needle hay || containsL cs needle

/-- Model of Rust `str::contains` on `String`. -/
def strContains (hay needle : String) : Bool :=
  containsL hay.data needle.data

example : strContains "machdep Apple M2" "Apple" = true := by decide
example : strContains "Intel(R) Core" "Apple" = false := by decide
example : containsL "VRAM,totalMB".data "VRAM".data = true := by rfl

/-- Split a char list at every char satisfying `p`, keeping empty pieces —
the behaviour of Rust `str::split(sep)` for a one-char separator pattern. -/
def splitOnP (p : Char → Bool) : List Char → List (List Char)
  | [] => [[]]
  | c :: cs =>
    let r := splitOnP p cs
    if p c then [] :: r
    else
      match r with
      | [] => [[c]]
      | g :: gs => (c :: g) :: gs

example : splitOnP (fun c => c = '=') "a=b=c".data = ["a".data, "b".data, "c".data] := by decide
example : splitOnP (fun c => c = '=') "ab".data = ["ab".data] := by decide
example : splitOnP (fun c => c = '=') "=".data = [[], []] := by decide

/-- Model of Rust `str::lines()`: split on `\n`, drop the final empty piece
produced by a trailing newline, and strip one trailing `\r` from each line. -/
def rustLines (s : List Char) : List (List Char) :=
  match s with
  | [] => []
  | _ :: _ =>
    let ps := splitOnP (fun c => c = '\n') s
    let ps := if ps.getLast? = some [] then ps.dropLast else ps
    ps.map fun l =>
      match l.getLast? with
      | some '\r' => l.dropLast
      | _ => l

example : rustLines "a\nb\n".data = ["a".data, "b".data] := by decide
example : rustLines "a\n\nb".data = ["a".data, [], "b".data] := by decide
example : rustLines "".data = [] := by decide
example : rustLines "\n".data = [[]] := by decide

/-- Drop chars satisfying `p` from both ends: Rust `str::trim_matches(p)`
(and `str::trim()` with `p = Char.isWhitespace`). -/
def trimCharsL (p : Char → Bool) (l : List Char) : List Char :=
  ((l.dropWhile p).reverse.dropWhile p).reverse

/-- Model of Rust `str::trim()` (whitespace on both ends; the source only
ever trims ASCII whitespace in practice). -/
def rustTrim (l : List Char) : List Char :=
  trimCharsL Char.isWhitespace l

/-- Model of Rust `str::trim_end_matches(c)`: drop every trailing `c`. -/
def trimEndAll (c : Char) (l : List Char) : List Char :=
  (l.reverse.dropWhile (fun d => d = c)).reverse

/-- Model of Rust `str::split_whitespace()`: whitespace-separated words,
empty pieces discarded. -/
def splitWhitespaceL (l : List Char) : List (List Char) :=
  (splitOnP Char.isWhitespace l).filter (fun w => !w.isEmpty)

example : splitWhitespaceL "  8 GB  ".data = ["8".data, "GB".data] := by decide

/-- Numeric value of a digit list (most significant first). -/
def natOfDigits : List Char → Nat :=
  List.foldl (fun a c => a * 10 + (c.toNat - 48)) 0

/-- Model of Rust `str::parse::<u64>()`: optional leading `+`, then one or
more ASCII digits, value below `2^64`; anything else is `Err`. -/
def parseU64 (l : List Char) : Option Nat :=
  let rest := match l with
    | '+' :: r => r
    | r => r
  if rest.isEmpty then none
  else if rest.all Char.isDigit then
    let v := natOfDigits rest
    if v < 2 ^ 64 then some v else none
  else none

example : parseU64 "8192".data = some 8192 := by decide
example : parseU64 " 8192".data = none := by decide
example : parseU64 "".data = none := by decide
example : parseU64 "-3".data = none := by decide

/-- Model of Rust `str::parse::<f64>()` followed by `value as u64`, as used
on the powermetrics residency line.  Modelled for finite plain decimals
`[+|-]digits[.digits]` (also `.digits` and `digits.`): the cast truncates
toward zero and saturates, so a negative literal gives `0` and values at or
above `2^64` give `2^64 - 1`.  Exponent notation and the special values
`inf` / `NaN` are modelled as parse misses; integer parts above `2^53`
are modelled without the float rounding the real program would apply
(no claim in scope exercises those inputs). -/
def parseF64asU64 (l : List Char) : Option Nat :=
  let (neg, rest) := match l with
    | '+' :: r => (false, r)
    | '-' :: r => (true, r)
    | r => (false, r)
  if rest.isEmpty then none
  else if rest.all (fun c => c.isDigit || c = '.')
      && (rest.filter (fun c => c = '.')).length ≤ 1
      && rest.any Char.isDigit then
    if neg then some 0
    else some (min (natOfDigits (rest.takeWhile (fun c => c ≠ '.'))) (2 ^ 64 - 1))
  else none

example : parseF64asU64 "55".data = some 55 := by decide
example : parseF64asU64 "55.0".data = some 55 := by decide
example : parseF64asU64 "-3.5".data = some 0 := by decide
example : parseF64asU64 ".".data = none := by decide
example : parseF64asU64 "".data = none := by decide
example : parseF64asU64 "12.5.3".data = none := by decide

/-- Outputs of the external diagnostic commands invoked by
`gpu_info_macos.rs`.  Each field is the stdout of one `Command::output()`
call: `none` when the call itself fails (tool absent or erroring), `some s`
the lossily-decoded stdout.  `cpuBrand` is `sysctl -n machdep.cpu.brand_string`,
`ioregOut` is `ioreg -r -d 1 -w 0 -c IOAccelerator`, `powermetricsOut` is
`powermetrics --samplers gpu_power -i 1000 -n 1`, `systemProfilerOut` is
`system_profiler SPDisplaysDataType`, and `memsizeOut` is
`sysctl -n hw.memsize`. -/
structure GpuEnv where
  cpuBrand : Option String
  ioregOut : Option String
  powermetricsOut : Option String
  systemProfilerOut : Option String
  memsizeOut : Option String
deriving DecidableEq, Repr

/-- `struct GpuInfo` from `gpu_info_macos.rs`: all three fields are `u64`
(every value the code constructs is reduced mod `2^64` where the Rust
arithmetic could wrap). -/
structure GpuInfo where
  gpu_usage : Nat
  vram_max : Nat
  vram_used : Nat
deriving DecidableEq, Repr

namespace GpuInfo

/-- `GpuInfo::is_apple_silicon`: the brand string contains `"Apple"`;
a failed sysctl call means `false`. -/
def is_apple_silicon (env : GpuEnv) : Bool :=
  match env.cpuBrand with
  | some cpu_info => strContains cpu_info "Apple"
  | none => false

/-- `GpuInfo::extract_vram_from_ioreg`, one line: the line must contain
`"VRAM"` or `"vram"`, have an `=`, and the piece after the first `=`
(trimmed, then stripped of `"` and `,` on both ends) must parse as `u64`;
the value is MB, converted to bytes with release-mode wrapping `u64`
multiplication. -/
def ioregLineVram (line : List Char) : Option Nat :=
  if containsL line "VRAM".data || containsL line "vram".data then
    match (splitOnP (fun c => c = '=') line).get? 1 with
    | some value_str =>
      let cleaned := trimCharsL (fun c => c = '"' || c = ',') (rustTrim value_str)
      match parseU64 cleaned with
      | some value => some (value * 1024 * 1024 % 2 ^ 64)
      | none => none
    | none => none
  else none

/-- `GpuInfo::extract_vram_from_ioreg`: first line that yields a value wins;
lines that miss the substring or fail to parse are skipped. -/
def extract_vram_from_ioreg (output : String) : Option Nat :=
  go (rustLines output.data)
where
  go : List (List Char) → Option Nat
    | [] => none
    | line :: rest =>
      match ioregLineVram line with
      | some v => some v
      | none => go rest

/-- `GpuInfo::parse_ioreg_gpu`: `None` exactly when the `ioreg` command
fails; otherwise a `GpuInfo` with usage 0 and the extracted VRAM size
(defaulting to 0). -/
def parse_ioreg_gpu (env : GpuEnv) : Option GpuInfo :=
  match env.ioregOut with
  | none => none
  | some out =>
    some { gpu_usage := 0
           vram_max := (extract_vram_from_ioreg out).getD 0
           vram_used := 0 }

/-- `GpuInfo::extract_gpu_usage_from_powermetrics`, one line: the line must
contain `"GPU active residency"` or `"GPU Active"`, have a `:`, and the
piece after the first `:` (trimmed, trailing `%`s stripped) must parse as
`f64`; the value is cast to `u64`. -/
def powermetricsLineUsage (line : List Char) : Option Nat :=
  if containsL line "GPU active residency".data || containsL line "GPU Active".data then
    match (splitOnP (fun c => c = ':') line).get? 1 with
    | some percent_str =>
      let cleaned := trimEndAll '%' (rustTrim percent_str)
      parseF64asU64 cleaned
    | none => none
  else none

/-- `GpuInfo::extract_gpu_usage_from_powermetrics`: first line that yields
a value wins. -/
def extract_gpu_usage_from_powermetrics (output : String) : Option Nat :=
  go (rustLines output.data)
where
  go : List (List Char) → Option Nat
    | [] => none
    | line :: rest =>
      match powermetricsLineUsage line with
      | some v => some v
      | none => go rest

/-- `GpuInfo::parse_powermetrics_gpu`: `None` exactly when the
`powermetrics` command fails; otherwise usage (defaulting to 0) with
`vram_max = 0` and `vram_used = 0`. -/
def parse_powermetrics_gpu (env : GpuEnv) : Option GpuInfo :=
  match env.powermetricsOut with
  | none => none
  | some out =>
    some { gpu_usage := (extract_gpu_usage_from_powermetrics out).getD 0
           vram_max := 0
           vram_used := 0 }

/-- `GpuInfo::extract_vram_from_system_profiler`, scanning the words of one
line: for each word after the first, a word containing `"GB"` (checked
first) or `"MB"` whose predecessor parses as `u64` yields bytes with
release-mode wrapping multiplication; a parse failure moves on to the next
word. -/
def profilerWordsVram : Option (List Char) → List (List Char) → Option Nat
  | _, [] => none
  | prev, w :: ws =>
    let next := profilerWordsVram (some w) ws
    match prev with
    | none => next
    | some pw =>
      if containsL w "GB".data then
        match parseU64 pw with
        | some value => some (value * 1024 * 1024 * 1024 % 2 ^ 64)
        | none => next
      else if containsL w "MB".data then
        match parseU64 pw with
        | some value => some (value * 1024 * 1024 % 2 ^ 64)
        | none => next
      else next

/-- `GpuInfo::extract_vram_from_system_profiler`: scan each line containing
`"VRAM"` or `"Memory"`; within it scan whitespace-separated words. -/
def extract_vram_from_system_profiler (output : String) : Option Nat :=
  go (rustLines output.data)
where
  go : List (List Char) → Option Nat
    | [] => none
    | line :: rest =>
      if containsL line "VRAM".data || containsL line "Memory".data then
        match profilerWordsVram none (splitWhitespaceL line) with
        | some v => some v
        | none => go rest
      else go rest

/-- `GpuInfo::parse_system_profiler_gpu`. -/
def parse_system_profiler_gpu (env : GpuEnv) : Option GpuInfo :=
  match env.systemProfilerOut with
  | none => none
  | some out =>
    some { gpu_usage := 0
           vram_max := (extract_vram_from_system_profiler out).getD 0
           vram_used := 0 }

/-- `GpuInfo::get_total_vram_apple_silicon`: trimmed stdout of
`sysctl -n hw.memsize`, parsed as `u64`. -/
def get_total_vram_apple_silicon (env : GpuEnv) : Option Nat :=
  match env.memsizeOut with
  | none => none
  | some out => parseU64 (rustTrim out.data)

/-- `GpuInfo::get_apple_silicon_gpu_info`: ioreg, then powermetrics, then
the unified-memory fallback — first `Some` wins; the fallback always
produces `Some`. -/
def get_apple_silicon_gpu_info (env : GpuEnv) : Option GpuInfo :=
  match parse_ioreg_gpu env with
  | some info => some info
  | none =>
    match parse_powermetrics_gpu env with
    | some info => some info
    | none =>
      some { gpu_usage := 0
             vram_max := (get_total_vram_apple_silicon env).getD 0
             vram_used := 0 }

/-- `GpuInfo::get_intel_amd_gpu_info`: system_profiler, then an all-zero
fallback. -/
def get_intel_amd_gpu_info (env : GpuEnv) : Option GpuInfo :=
  match parse_system_profiler_gpu env with
  | some info => some info
  | none => some { gpu_usage := 0, vram_max := 0, vram_used := 0 }

/-- `GpuInfo::get_gpu_info`: dispatch on the CPU brand. -/
def get_gpu_info (env : GpuEnv) : Option GpuInfo :=
  if is_apple_silicon env then get_apple_silicon_gpu_info env
  else get_intel_amd_gpu_info env

end GpuInfo

example :
    GpuInfo.extract_vram_from_ioreg "  | \"VRAM,totalMB\" = 8192" =
      some 8589934592 := by decide
example :
    GpuInfo.extract_gpu_usage_from_powermetrics "GPU active residency:  55.00%" =
      some 55 := by decide
example :
    GpuInfo.extract_vram_from_system_profiler "  VRAM (Total): 8 GB" =
      some 8589934592 := by decide

/-- Modelled from the spec: `helpers::pop_4u8` (file `src/helpers.rs` is not
in the sources provided).  The spec fixes the unit field as a fixed 4-byte
field, left-justified, NUL-padded ASCII, so `pop_4u8 bytes` is the first
four bytes of `bytes` padded on the right with zero bytes. -/
def pop_4u8 (bytes : List Nat) : List Nat :=
  bytes.take 4 ++ List.replicate (4 - bytes.length) 0

/-- Byte values of a (pure-ASCII) unit string, Rust `str::as_bytes()`. -/
def strBytes (s : String) : List Nat :=
  s.data.map Char.toNat

example : pop_4u8 (strBytes "GB") = [71, 66, 0, 0] := by decide
example : pop_4u8 (strBytes "B") = [66, 0, 0, 0] := by decide

/-- `struct SystemInfo` from `system_info.rs`.  `cpu_usage`, `ram_usage`,
`gpu_usage`, `vram_usage` are `u8`; `ram_max`, `vram_max` are `u16`;
the unit fields are the 4-byte arrays produced by `pop_4u8`. -/
structure SystemInfo where
  cpu_usage : Nat
  ram_max : Nat
  ram_usage : Nat
  ram_unit : List Nat
  gpu_usage : Nat
  vram_max : Nat
  vram_usage : Nat
  vram_unit : List Nat
deriving DecidableEq, Repr

namespace SystemInfo

/-- `SystemInfo::get_unit`: exponent to unit symbol, `"UB"` defensively. -/
def get_unit (exp : Nat) : String :=
  match exp with
  | 0 => "B"
  | 1 => "KB"
  | 2 => "MB"
  | 3 => "GB"
  | 4 => "TB"
  | _ => "UB"

/-- `SystemInfo::get_exp`: the guard chain `x > base^4, x > base^3,
x > base^2, x > base`, defaulting to 0.  (For the only call sites
`base = 1024`, so the `u64::pow` calls do not overflow.) -/
def get_exp (num base : Nat) : Nat :=
  if num > base ^ 4 then 4
  else if num > base ^ 3 then 3
  else if num > base ^ 2 then 2
  else if num > base then 1
  else 0

/-- The float expression `((used as f64 / total as f64) * 100.0) as u8` from
`system_info.rs`, modelled as exact rational division with the truncating,
saturating `f64 -> u8` cast: `min (used * 100 / total) 255` when
`total > 0`.  The in-range bound properties proved below are invariant
under replacing the correctly-rounded `f64` steps by exact arithmetic,
because `100` and `1` are exactly representable and rounding is monotone. -/
def pctOf (used total : Nat) : Nat :=
  min (used * 100 / total) 255

/-- `SystemInfo::get_gpu_stats` (the `target_os = "macos"` version): the
`(gpu_usage, vram_max, vram_usage, vram_unit)` tuple.  `as u8` / `as u16`
integer casts wrap (`% 2^8`, `% 2^16`). -/
def get_gpu_stats (env : GpuEnv) : Nat × Nat × Nat × List Nat :=
  match GpuInfo.get_gpu_info env with
  | some gpu_info =>
    let vram_exp := get_exp gpu_info.vram_max 1024
    let vram_divisor := 1024 ^ vram_exp
    let vram_max := if vram_divisor > 0 then gpu_info.vram_max / vram_divisor % 2 ^ 16 else 0
    let vram_usage := if gpu_info.vram_max > 0 then pctOf gpu_info.vram_used gpu_info.vram_max else 0
    let vram_unit := pop_4u8 (strBytes (get_unit vram_exp))
    let gpu_usage := gpu_info.gpu_usage % 2 ^ 8
    (gpu_usage, vram_max, vram_usage, vram_unit)
  | none => (0, 0, 0, pop_4u8 (strBytes "GB"))

/-- `SystemInfo::get_system_info`.  The sampled inputs are parameters:
`cpu_usage` is the already-cast `u8` CPU percentage (an external `f32`
reading), `ram_total` / `ram_used` are `sysinfo`'s `u64` memory counters,
and `env` holds the GPU command outputs.  The function is total — it
returns a `SystemInfo` on every input, mirroring the absence of any error
path in the source. -/
def get_system_info (cpu_usage ram_total ram_used : Nat) (env : GpuEnv) : SystemInfo :=
  let ram_exp := get_exp ram_total 1024
  let ram_divisor := 1024 ^ ram_exp
  let ram_max := ram_total / ram_divisor % 2 ^ 16
  let ram_usage := if ram_total > 0 then pctOf ram_used ram_total else 0
  let ram_unit := pop_4u8 (strBytes (get_unit ram_exp))
  let stats := get_gpu_stats env
  { cpu_usage := cpu_usage
    ram_max := ram_max
    ram_usage := ram_usage
    ram_unit := ram_unit
    gpu_usage := stats.1
    vram_max := stats.2.1
    vram_usage := stats.2.2.1
    vram_unit := stats.2.2.2 }

end SystemInfo

/-!
Device selection and the monitoring loop from `main.rs`.

A discovered peripheral is modelled by its advertised local name:
`Option String`, `none` when `properties` or `local_name` is absent (the
source then displays and filters on the literal `"Unknown"`).
-/

/-- The name `main` filters on: `properties.and_then(local_name)` with
`unwrap_or("Unknown")`. -/
def peripheralName (p : Option String) : String :=
  p.getD "Unknown"

/-- The selection condition from `main`:
`local_name.contains("PC Mon") || local_name.contains("Flipper")`
(case-sensitive substring tests). -/
def isFlipperName (name : String) : Bool :=
  strContains name "PC Mon" || strContains name "Flipper"

/-- The `for peripheral in peripherals` loop of `main` with its `break`:
the first peripheral whose displayed name matches is selected; the rest are
only listed. -/
def findFlipper (peripherals : List (Option String)) : Option (Option String) :=
  peripherals.find? (fun p => isFlipperName (peripheralName p))

/-- What `main` does after scanning, as far as device selection goes:
either it proceeds to connect to a selected peripheral, or it falls back to
`show_system_info_demo` (the local-only presentation mode).  The empty-scan
branch of `main` also ends in the demo. -/
inductive SessionMode
  | connect (p : Option String)
  | localDemo
deriving DecidableEq, Repr

/-- The branch structure of `main` around device selection. -/
def selectMode (peripherals : List (Option String)) : SessionMode :=
  if peripherals.isEmpty then .localDemo
  else
    match findFlipper peripherals with
    | some p => .connect p
    | none => .localDemo

/-- One tick's external outcomes inside `monitor_and_send_loop`:
whether `serde_json::to_vec` returned `Ok` (it always does for this type,
but the source matches on it) and whether `peripheral.write` returned `Ok`. -/
structure TickEnv where
  serializeOk : Bool
  writeOk : Bool
deriving DecidableEq, Repr

/-- Observable state of `monitor_and_send_loop`: the `iteration` counter
plus instrumentation counting how many ticks reached the `write` call and
how many failures were merely logged. -/
structure LoopSt where
  iteration : Nat
  writesAttempted : Nat
  failuresLogged : Nat
deriving DecidableEq, Repr

/-- The ways the loop body could demand termination.  The source body has
no `break`, no `return` and no `?` inside the `loop`, so no constructor is
ever produced — which is exactly what the body translation below shows. -/
inductive LoopExit
  | stopped
deriving DecidableEq, Repr

/-- The body of `loop { ... }` in `monitor_and_send_loop`, translated
branch by branch: increment `iteration`, sample, print, then match on
serialization and on the write result; every arm only prints and falls
through to the sleep, so every arm yields `none` (continue). -/
def monitorBody (env : TickEnv) (st : LoopSt) : LoopSt × Option LoopExit :=
  let st1 : LoopSt :=
    { iteration := st.iteration + 1
      writesAttempted := st.writesAttempted
      failuresLogged := st.failuresLogged }
  match env.serializeOk with
  | true =>
    let st2 := { st1 with writesAttempted := st1.writesAttempted + 1 }
    match env.writeOk with
    | true => (st2, none)
    | false => ({ st2 with failuresLogged := st2.failuresLogged + 1 }, none)
  | false => ({ st1 with failuresLogged := st1.failuresLogged + 1 }, none)

/-- Run `n` ticks of the monitoring loop against the tick environments
`envs`; the `Bool` is "still looping" and goes false if some body ever
demands an exit. -/
def monitorRun (envs : Nat → TickEnv) : Nat → LoopSt × Bool
  | 0 => (⟨0, 0, 0⟩, true)
  | n + 1 =>
    match monitorRun envs n with
    | (st, true) =>
      match monitorBody (envs n) st with
      | (st2, none) => (st2, true)
      | (st2, some _) => (st2, false)
    | (st, false) => (st, false)

/-!
Shared observer definitions and helper lemmas.
-/

/-- A `GpuEnv` in which every external command fails outright. -/
def envAllFail : GpuEnv :=
  { cpuBrand := none
    ioregOut := none
    powermetricsOut := none
    systemProfilerOut := none
    memsizeOut := none }

/-- Every GPU strategy fails to produce a value: each external command
either fails or produces output from which the corresponding extractor
gets nothing, and the `hw.memsize` fallback query yields nothing either. -/
def gpuStrategyFailsAll (env : GpuEnv) : Prop :=
  (∀ s, env.ioregOut = some s → GpuInfo.extract_vram_from_ioreg s = none) ∧
  (∀ s, env.powermetricsOut = some s → GpuInfo.extract_gpu_usage_from_powermetrics s = none) ∧
  (∀ s, env.systemProfilerOut = some s → GpuInfo.extract_vram_from_system_profiler s = none) ∧
  (∀ s, env.memsizeOut = some s → parseU64 (rustTrim s.data) = none)

/-- All four external GPU commands fail at the command level. -/
def gpuCommandsAllNone (env : GpuEnv) : Prop :=
  env.ioregOut = none ∧ env.powermetricsOut = none ∧
  env.systemProfilerOut = none ∧ env.memsizeOut = none

/-- The unified-memory fallback arm (Strategy D) of
`get_apple_silicon_gpu_info` is reached exactly when both earlier parses
return `None`. -/
def strategyD_used (env : GpuEnv) : Bool :=
  (GpuInfo.parse_ioreg_gpu env).isNone && (GpuInfo.parse_powermetrics_gpu env).isNone

/-- Some strategy before D yields a VRAM size.  Only Strategy A (ioreg) can:
`parse_powermetrics_gpu` always sets `vram_max = 0`. -/
def earlierYieldsVram (env : GpuEnv) : Bool :=
  match env.ioregOut with
  | some s => (GpuInfo.extract_vram_from_ioreg s).isSome
  | none => false

/-- Concrete environment for C1: ioreg reports a VRAM size (8192 MB) and
powermetrics reports a 55% GPU active residency. -/
def envC1 : GpuEnv :=
  { cpuBrand := some "Apple M2"
    ioregOut := some "    | \"VRAM,totalMB\" = 8192"
    powermetricsOut := some "GPU active residency:  55.00%"
    systemProfilerOut := none
    memsizeOut := none }

/-- Concrete environment for C3: ioreg runs but its output holds no VRAM
field; powermetrics fails; `hw.memsize` is available and reports 8 GiB. -/
def envC3 : GpuEnv :=
  { cpuBrand := some "Apple M1"
    ioregOut := some "no accelerator entries"
    powermetricsOut := none
    systemProfilerOut := none
    memsizeOut := some "8589934592" }

/-- Scan result with one matching peripheral in third position. -/
def psMatch : List (Option String) :=
  [some "Random Device", none, some "Flipper Unicorn"]

/-- Scan result where no advertised name holds a marker substring. -/
def psNoMatch : List (Option String) :=
  [some "MacBook Pro", none]

lemma get_gpu_info_failsAll (env : GpuEnv) (h : gpuStrategyFailsAll env) :
    GpuInfo.get_gpu_info env = some ⟨0, 0, 0⟩ := by
  obtain ⟨hio, hpm, hsp, hms⟩ := h
  unfold GpuInfo.get_gpu_info
  split
  · unfold GpuInfo.get_apple_silicon_gpu_info
    cases hi : env.ioregOut with
    | some s =>
      simp [GpuInfo.parse_ioreg_gpu, hi, hio s hi]
    | none =>
      simp only [GpuInfo.parse_ioreg_gpu, hi]
      cases hp : env.powermetricsOut with
      | some s =>
        simp [GpuInfo.parse_powermetrics_gpu, hp, hpm s hp]
      | none =>
        simp only [GpuInfo.parse_powermetrics_gpu, hp]
        cases hm : env.memsizeOut with
        | some s =>
          simp [GpuInfo.get_total_vram_apple_silicon, hm, hms s hm]
        | none =>
          simp [GpuInfo.get_total_vram_apple_silicon, hm]
  · unfold GpuInfo.get_intel_amd_gpu_info
    cases hs : env.systemProfilerOut with
    | some s =>
      simp [GpuInfo.parse_system_profiler_gpu, hs, hsp s hs]
    | none =>
      simp [GpuInfo.parse_system_profiler_gpu, hs]

lemma get_gpu_stats_of_zero (env : GpuEnv)
    (h : GpuInfo.get_gpu_info env = some ⟨0, 0, 0⟩) :
    SystemInfo.get_gpu_stats env = (0, 0, 0, pop_4u8 (strBytes "B")) := by
  unfold SystemInfo.get_gpu_stats
  rw [h]
  decide

lemma gpuCommandsAllNone_failsAll (env : GpuEnv) (h : gpuCommandsAllNone env) :
    gpuStrategyFailsAll env := by
  obtain ⟨h1, h2, h3, h4⟩ := h
  refine ⟨fun s hs => ?_, fun s hs => ?_, fun s hs => ?_, fun s hs => ?_⟩ <;>
    simp_all

lemma pctOf_le_100 (used total : Nat) (hle : used ≤ total) :
    SystemInfo.pctOf used total ≤ 100 := by
  unfold SystemInfo.pctOf
  refine le_trans (min_le_left _ _) ?_
  have h1 : used * 100 ≤ total * 100 := Nat.mul_le_mul_right 100 hle
  exact Nat.div_le_of_le_mul h1

lemma get_gpu_info_isSome (env : GpuEnv) :
    (GpuInfo.get_gpu_info env).isSome = true := by
  unfold GpuInfo.get_gpu_info
  split
  · unfold GpuInfo.get_apple_silicon_gpu_info
    cases hpi : GpuInfo.parse_ioreg_gpu env with
    | some i => simp
    | none =>
      cases hpp : GpuInfo.parse_powermetrics_gpu env with
      | some i => simp
      | none => simp
  · unfold GpuInfo.get_intel_amd_gpu_info
    cases hps : GpuInfo.parse_system_profiler_gpu env with
    | some i => simp
    | none => simp

/-!
Claim theorems.
-/

/-- Claim C2, counterexample: at `raw_quantity = 1024^4 = 1099511627776` the
chosen exponent is `3 < 4` but the floor-divided mantissa is exactly `1024`,
not `< 1024`, refuting the claim as stated. -/
theorem scale_mantissa_boundary_cex :
    SystemInfo.get_exp 1099511627776 1024 < 4 ∧
    ¬ 1099511627776 / 1024 ^ SystemInfo.get_exp 1099511627776 1024 < 1024 := by
  decide

/-- Claim C2 (corrected): for every `raw_quantity`, when the chosen
exponent `e = get_exp raw 1024` is less than 4 and `raw ≠ 1024 ^ (e + 1)`,
the mantissa `raw / 1024 ^ e` is below 1024; at the excluded boundary
points (`raw = 1024 ^ (e + 1)`, which includes `raw = 1024` at `e = 0`)
the mantissa is exactly 1024. -/
theorem scale_mantissa_lt_of_not_boundary (num : Nat)
    (hlt : SystemInfo.get_exp num 1024 < 4)
    (hne : num ≠ 1024 ^ (SystemInfo.get_exp num 1024 + 1)) :
    num / 1024 ^ SystemInfo.get_exp num 1024 < 1024 := by
  unfold SystemInfo.get_exp at *
  split_ifs at * with h4 h3 h2 h1
  · exact absurd hlt (by norm_num)
  · have hb : num < 1024 ^ 4 := lt_of_le_of_ne (not_lt.mp h4) (by simpa using hne)
    exact Nat.div_lt_of_lt_mul (by calc
      num < 1024 ^ 4 := hb
      _ = 1024 ^ 3 * 1024 := by ring)
  · have hb : num < 1024 ^ 3 := lt_of_le_of_ne (not_lt.mp h3) (by simpa using hne)
    exact Nat.div_lt_of_lt_mul (by calc
      num < 1024 ^ 3 := hb
      _ = 1024 ^ 2 * 1024 := by ring)
  · have hb : num < 1024 ^ 2 := lt_of_le_of_ne (not_lt.mp h2) (by simpa using hne)
    exact Nat.div_lt_of_lt_mul (by calc
      num < 1024 ^ 2 := hb
      _ = 1024 ^ 1 * 1024 := by ring)
  · have hb : num < 1024 := lt_of_le_of_ne (not_lt.mp h1) (by simpa using hne)
    simpa using hb

/-- Witness for C2's corrected theorem at `raw_quantity = 5000`:
exponent 1, mantissa `5000 / 1024 = 4 < 1024`. -/
theorem scale_mantissa_lt_of_not_boundary_witness :
    SystemInfo.get_exp 5000 1024 < 4 ∧
    5000 ≠ 1024 ^ (SystemInfo.get_exp 5000 1024 + 1) ∧
    5000 / 1024 ^ SystemInfo.get_exp 5000 1024 < 1024 :=
  ⟨by decide, by decide,
    scale_mantissa_lt_of_not_boundary 5000 (by decide) (by decide)⟩

/-- Claim C6: `raw_quantity = 8_589_934_592` with base 1024 scales to
exponent 3, mantissa 8, unit symbol `"GB"`. -/
theorem scale_8GiB_scenario :
    SystemInfo.get_exp 8589934592 1024 = 3 ∧
    8589934592 / 1024 ^ SystemInfo.get_exp 8589934592 1024 = 8 ∧
    SystemInfo.get_unit (SystemInfo.get_exp 8589934592 1024) = "GB" := by
  decide

/-- Claim C7: for every input quantity with base 1024 the computed exponent
is at most 4, so `get_unit` never falls through to the defensive `"UB"`
branch in the scaling pipeline. -/
theorem get_exp_le_four_unit_defined (num : Nat) :
    SystemInfo.get_exp num 1024 ≤ 4 ∧
    SystemInfo.get_unit (SystemInfo.get_exp num 1024) ≠ "UB" := by
  unfold SystemInfo.get_exp
  split_ifs <;> exact ⟨by norm_num, by decide⟩

/-- Claim C5: for every total and used memory with `used ≤ total`, the
computed RAM usage percentage is in `[0, 100]` (it is a `Nat`, so only the
upper bound is substantive), and with `total = 0` it is `0` with no
division error — the zero-guard branch returns 0 directly. -/
theorem ram_usage_pct_bounds (cpu ram_total ram_used : Nat) (env : GpuEnv)
    (h : ram_used ≤ ram_total) :
    (SystemInfo.get_system_info cpu ram_total ram_used env).ram_usage ≤ 100 ∧
    (SystemInfo.get_system_info cpu 0 ram_used env).ram_usage = 0 := by
  constructor
  · show (if ram_total > 0 then SystemInfo.pctOf ram_used ram_total else 0) ≤ 100
    split
    · exact pctOf_le_100 _ _ h
    · norm_num
  · rfl

/-- Witness for C5 at `total = 100`, `used = 50`. -/
theorem ram_usage_pct_bounds_witness :
    (50 : Nat) ≤ 100 ∧
    (SystemInfo.get_system_info 30 100 50 envAllFail).ram_usage ≤ 100 ∧
    (SystemInfo.get_system_info 30 0 50 envAllFail).ram_usage = 0 :=
  ⟨by decide, (ram_usage_pct_bounds 30 100 50 envAllFail (by decide)).1,
    (ram_usage_pct_bounds 30 100 50 envAllFail (by decide)).2⟩

/-- Claim C4: `get_system_info` is a total function (it returns a
`SystemInfo` on every input — there is no error path in the embedding,
mirroring the source's return type), and when every GPU strategy fails to
produce any value the snapshot commits `gpu_usage = 0`, `vram_max = 0`
and `vram_usage = 0` instead of an error or an omitted field. -/
theorem sampler_total_zero_on_all_fail (cpu ram_total ram_used : Nat)
    (env : GpuEnv) (h : gpuStrategyFailsAll env) :
    (SystemInfo.get_system_info cpu ram_total ram_used env).gpu_usage = 0 ∧
    (SystemInfo.get_system_info cpu ram_total ram_used env).vram_max = 0 ∧
    (SystemInfo.get_system_info cpu ram_total ram_used env).vram_usage = 0 := by
  have hg := get_gpu_stats_of_zero env (get_gpu_info_failsAll env h)
  refine ⟨?_, ?_, ?_⟩
  · show (SystemInfo.get_gpu_stats env).1 = 0
    rw [hg]
  · show (SystemInfo.get_gpu_stats env).2.1 = 0
    rw [hg]
  · show (SystemInfo.get_gpu_stats env).2.2.1 = 0
    rw [hg]

/-- Witness for C4: the environment in which every external command fails,
with all hypotheses discharged. -/
theorem sampler_total_zero_on_all_fail_witness :
    gpuStrategyFailsAll envAllFail ∧
    (SystemInfo.get_system_info 0 0 0 envAllFail).gpu_usage = 0 ∧
    (SystemInfo.get_system_info 0 0 0 envAllFail).vram_max = 0 ∧
    (SystemInfo.get_system_info 0 0 0 envAllFail).vram_usage = 0 := by
  have hfail : gpuStrategyFailsAll envAllFail := by
    refine ⟨fun s hs => ?_, fun s hs => ?_, fun s hs => ?_, fun s hs => ?_⟩ <;>
      simp [envAllFail] at hs
  exact ⟨hfail, sampler_total_zero_on_all_fail 0 0 0 envAllFail hfail⟩

/-- Claim C10: on macOS `GpuInfo::get_gpu_info` always returns `Some`
(both the Apple Silicon and the Intel/AMD chains end in a `Some` fallback),
so the `None` branch of `get_gpu_stats` — which would return zeros with
unit bytes `"GB"` — is unreachable; when every external command fails the
default flows through the `Some` path, where `vram_max = 0` gives exponent
0 and hence unit `"B"`, which differs from the dead branch's `"GB"`. -/
theorem gpu_info_always_some_unit_B (env : GpuEnv) :
    (GpuInfo.get_gpu_info env).isSome = true ∧
    (gpuCommandsAllNone env →
      SystemInfo.get_gpu_stats env = (0, 0, 0, pop_4u8 (strBytes "B")) ∧
      pop_4u8 (strBytes "B") ≠ pop_4u8 (strBytes "GB")) := by
  refine ⟨get_gpu_info_isSome env, fun h => ⟨?_, by decide⟩⟩
  exact get_gpu_stats_of_zero env
    (get_gpu_info_failsAll env (gpuCommandsAllNone_failsAll env h))

/-- Witness for C10 at the all-commands-fail environment. -/
theorem gpu_info_always_some_unit_B_witness :
    gpuCommandsAllNone envAllFail ∧
    (GpuInfo.get_gpu_info envAllFail).isSome = true ∧
    SystemInfo.get_gpu_stats envAllFail = (0, 0, 0, pop_4u8 (strBytes "B")) := by
  have hn : gpuCommandsAllNone envAllFail := ⟨rfl, rfl, rfl, rfl⟩
  exact ⟨hn, (gpu_info_always_some_unit_B envAllFail).1,
    ((gpu_info_always_some_unit_B envAllFail).2 hn).1⟩

/-- Claim C1, counterexample: in `envC1`, Strategy A (ioreg) yields a VRAM
size (8192 MB = 8589934592 bytes) and no usage, and Strategy B
(powermetrics) would yield usage 55 — yet the combined result is A's
record alone, with `gpu_usage = 0`, not 55: strategies are exclusive,
refuting independent contribution. -/
theorem gpu_chain_not_independent_cex :
    Option.bind envC1.ioregOut GpuInfo.extract_vram_from_ioreg = some 8589934592 ∧
    Option.bind envC1.powermetricsOut GpuInfo.extract_gpu_usage_from_powermetrics = some 55 ∧
    GpuInfo.get_apple_silicon_gpu_info envC1 =
      some { gpu_usage := 0, vram_max := 8589934592, vram_used := 0 } ∧
    (GpuInfo.get_apple_silicon_gpu_info envC1).map GpuInfo.gpu_usage ≠ some 55 := by
  decide

/-- Claim C1 (corrected): the fallback chain is first-success-wins, not
independently contributing.  Whenever Strategy A (`parse_ioreg_gpu`)
returns a result — which includes the case where it yields a VRAM size and
no usage — that result is the combined GPU result unchanged and Strategy B
is never consulted; Strategy B's usage reaches the combined result only
when Strategy A's command fails outright. -/
theorem gpu_chain_first_success_wins (env : GpuEnv) :
    (∀ i, GpuInfo.parse_ioreg_gpu env = some i →
      GpuInfo.get_apple_silicon_gpu_info env = some i) ∧
    (GpuInfo.parse_ioreg_gpu env = none →
      ∀ i, GpuInfo.parse_powermetrics_gpu env = some i →
        GpuInfo.get_apple_silicon_gpu_info env = some i) := by
  constructor
  · intro i hi
    unfold GpuInfo.get_apple_silicon_gpu_info
    rw [hi]
  · intro h i hi
    unfold GpuInfo.get_apple_silicon_gpu_info
    rw [h, hi]

/-- Witness for C1's corrected theorem at `envC1`. -/
theorem gpu_chain_first_success_wins_witness :
    GpuInfo.parse_ioreg_gpu envC1 =
      some { gpu_usage := 0, vram_max := 8589934592, vram_used := 0 } ∧
    GpuInfo.get_apple_silicon_gpu_info envC1 =
      some { gpu_usage := 0, vram_max := 8589934592, vram_used := 0 } :=
  ⟨by decide, (gpu_chain_first_success_wins envC1).1 _ (by decide)⟩

/-- Claim C3, counterexample: in `envC3` no earlier strategy yields a VRAM
size (ioreg runs but its output has no VRAM field), yet Strategy D is not
triggered — Strategy A already returned a `Some` with `vram_max = 0`, and
the available `hw.memsize` value (8 GiB) is ignored. -/
theorem strategyD_trigger_cex :
    earlierYieldsVram envC3 = false ∧
    strategyD_used envC3 = false ∧
    GpuInfo.get_apple_silicon_gpu_info envC3 =
      some { gpu_usage := 0, vram_max := 0, vram_used := 0 } ∧
    GpuInfo.get_total_vram_apple_silicon envC3 = some 8589934592 := by
  decide

/-- Claim C3 (corrected): Strategy D is triggered exactly when the ioreg
and powermetrics commands both fail at the command level (not merely when
they yield no VRAM size); in that case total VRAM is approximated as total
system memory via `sysctl hw.memsize` (defaulting to 0 when that query
also fails). -/
theorem strategyD_trigger_iff_commands_fail (env : GpuEnv) :
    (strategyD_used env = true ↔
      env.ioregOut = none ∧ env.powermetricsOut = none) ∧
    (env.ioregOut = none → env.powermetricsOut = none →
      GpuInfo.get_apple_silicon_gpu_info env =
        some { gpu_usage := 0
               vram_max := (GpuInfo.get_total_vram_apple_silicon env).getD 0
               vram_used := 0 }) := by
  constructor
  · unfold strategyD_used GpuInfo.parse_ioreg_gpu GpuInfo.parse_powermetrics_gpu
    cases env.ioregOut <;> cases env.powermetricsOut <;> simp
  · intro h1 h2
    unfold GpuInfo.get_apple_silicon_gpu_info GpuInfo.parse_ioreg_gpu
      GpuInfo.parse_powermetrics_gpu
    rw [h1, h2]

/-- Witness for C3's corrected theorem at the all-commands-fail
environment, exercising both directions. -/
theorem strategyD_trigger_iff_commands_fail_witness :
    strategyD_used envAllFail = true ∧
    GpuInfo.get_apple_silicon_gpu_info envAllFail =
      some { gpu_usage := 0
             vram_max := (GpuInfo.get_total_vram_apple_silicon envAllFail).getD 0
             vram_used := 0 } :=
  ⟨(strategyD_trigger_iff_commands_fail envAllFail).1.mpr ⟨rfl, rfl⟩,
    (strategyD_trigger_iff_commands_fail envAllFail).2 rfl rfl⟩

/-- Claim C8: device selection picks the first discovered peripheral whose
displayed local name contains a recognized marker substring
(case-sensitive `"PC Mon"` or `"Flipper"`); every peripheral before it
fails the marker test (so unmatched peripherals are only listed, never
selected), and when no candidate matches the session falls over to the
local-only presentation mode instead of connecting. -/
theorem device_selection_first_match (ps : List (Option String)) :
    (∀ p, findFlipper ps = some p →
      isFlipperName (peripheralName p) = true ∧
      ∃ pre post, ps = pre ++ p :: post ∧
        ∀ q ∈ pre, isFlipperName (peripheralName q) = false) ∧
    (findFlipper ps = none → selectMode ps = SessionMode.localDemo) := by
  constructor
  · intro p hp
    induction ps with
    | nil => simp [findFlipper] at hp
    | cons a as ih =>
      cases ha : isFlipperName (peripheralName a) with
      | true =>
        rw [findFlipper,
          @List.find?_cons_of_pos _ (fun q => isFlipperName (peripheralName q)) a as ha] at hp
        obtain rfl : a = p := by simpa using hp
        exact ⟨ha, [], as, rfl, by simp⟩
      | false =>
        rw [findFlipper,
          @List.find?_cons_of_neg _ (fun q => isFlipperName (peripheralName q)) a as
            (by simp [ha])] at hp
        obtain ⟨hm, pre, post, heq, hall⟩ := ih hp
        refine ⟨hm, a :: pre, post, by rw [heq]; rfl, ?_⟩
        intro q hq
        rcases List.mem_cons.mp hq with rfl | hq2
        · exact ha
        · exact hall q hq2
  · intro h
    unfold selectMode
    split
    · rfl
    · rw [h]

/-- Witness for C8: a scan where only the third peripheral matches, and a
scan with no matching peripheral. -/
theorem device_selection_first_match_witness :
    findFlipper psMatch = some (some "Flipper Unicorn") ∧
    (isFlipperName (peripheralName (some "Flipper Unicorn")) = true ∧
      ∃ pre post, psMatch = pre ++ (some "Flipper Unicorn") :: post ∧
        ∀ q ∈ pre, isFlipperName (peripheralName q) = false) ∧
    findFlipper psNoMatch = none ∧
    selectMode psNoMatch = SessionMode.localDemo :=
  ⟨by decide, (device_selection_first_match psMatch).1 _ (by decide),
    by decide, (device_selection_first_match psNoMatch).2 (by decide)⟩

lemma monitorBody_spec (env : TickEnv) (st : LoopSt) :
    (monitorBody env st).2 = none ∧
    (monitorBody env st).1.iteration = st.iteration + 1 ∧
    (monitorBody env st).1.writesAttempted =
      st.writesAttempted + (if env.serializeOk then 1 else 0) := by
  unfold monitorBody
  cases env.serializeOk <;> cases env.writeOk <;> simp

/-- Claim C9: the streaming loop body never terminates the loop — after
any number of ticks the loop is still running, the iteration counter
equals the tick count, and (whenever serialization succeeds, which the
source type guarantees) every tick attempts a delivery regardless of how
many earlier writes failed. -/
theorem write_failure_never_terminates (envs : Nat → TickEnv) (n : Nat) :
    (monitorRun envs n).2 = true ∧
    (monitorRun envs n).1.iteration = n ∧
    ((∀ k, (envs k).serializeOk = true) →
      (monitorRun envs n).1.writesAttempted = n) := by
  induction n with
  | zero => exact ⟨rfl, rfl, fun _ => rfl⟩
  | succ n ih =>
    obtain ⟨hrun, hiter, hwrites⟩ := ih
    rcases hmr : monitorRun envs n with ⟨st, b⟩
    rw [hmr] at hrun hiter hwrites
    simp only at hrun hiter hwrites
    subst hrun
    obtain ⟨hb0, hb1, hb2⟩ := monitorBody_spec (envs n) st
    rcases hb : monitorBody (envs n) st with ⟨st2, e⟩
    rw [hb] at hb0 hb1 hb2
    simp only at hb0 hb1 hb2
    subst hb0
    simp only [monitorRun, hmr, hb]
    refine ⟨by trivial, by rw [hb1, hiter], fun hall => ?_⟩
    rw [hb2, hwrites hall, if_pos (hall n)]

/-- Witness for C9: with a write failure at tick 0 and successes after,
the loop is still running after 4 ticks and all 4 ticks attempted
delivery. -/
theorem write_failure_never_terminates_witness :
    (∀ k, ((fun k => TickEnv.mk true (decide (k ≠ 0))) k).serializeOk = true) ∧
    ((fun k => TickEnv.mk true (decide (k ≠ 0))) 0).writeOk = false ∧
    (monitorRun (fun k => TickEnv.mk true (decide (k ≠ 0))) 4).2 = true ∧
    (monitorRun (fun k => TickEnv.mk true (decide (k ≠ 0))) 4).1.iteration = 4 ∧
    (monitorRun (fun k => TickEnv.mk true (decide (k ≠ 0))) 4).1.writesAttempted = 4 :=
  ⟨fun _ => rfl, by decide,
    (write_failure_never_terminates (fun k => TickEnv.mk true (decide (k ≠ 0))) 4).1,
    (write_failure_never_terminates (fun k => TickEnv.mk true (decide (k ≠ 0))) 4).2.1,
    (write_failure_never_terminates (fun k => TickEnv.mk true (decide (k ≠ 0))) 4).2.2
      (fun _ => rfl)⟩
